import Mathlib

/-!
Verification of the remo-api streaming JSON record parsers.

This file shallowly embeds the event-driven parse state machines of the
remo-api crate: `read_devices` (src/device.rs) and `read_appliances`
(src/appliances.rs), together with their supporting pure helpers,
`copy_string_possible` / `copy_string_option` (src/parser_options.rs),
`MacAddress::from_str` / `parse_mac_address` (src/device.rs),
`ModelNodeKey::try_from` (src/node_key.rs) and
`ApplianceType::try_from` (src/appliances.rs).

Strings are modelled as `List Char`; byte capacities of the bounded
heapless strings are tracked through `Char.utf8Size`, matching the
byte-capacity semantics of `heapless::String<N>`.  The external JSON
tokenizer is abstracted to a list of structural events fed to the
per-event closure of each reader, exactly as the closure receives them.
-/

deriving instance DecidableEq for Except

namespace RemoApi

/-- Byte length of a character list under UTF-8, matching the byte
capacity accounting of `heapless::String`. -/
def utf8Len : List Char → Nat
  | [] => 0
  | c :: t => c.utf8Size + utf8Len t

/-! ## Configuration constants (src/config.rs) -/

def MAX_FIRMWARE_VERSION_LEN : Nat := 48
def MAX_NICKNAME_LEN : Nat := 48
def MAX_MODEL_NAME_LEN : Nat := 64
def MAX_DEVICE_NAME_LEN : Nat := 48
def MAX_MANUFACTURER_LEN : Nat := 32
def MAX_REMOTE_NAME_LEN : Nat := 32
def MAX_SERIES_LEN : Nat := 32
def MAX_IMAGE_LEN : Nat := 32
def MAX_COUNTRY_LEN : Nat := 8
def MAX_ECHONET_LITE_NAME_LEN : Nat := 64
def MAX_ECHONET_LITE_VALUE_LEN : Nat := 16
def SERIAL_NUMBER_LEN : Nat := 14

/-! ## Error type (src/common_types.rs) -/

/-- `ModelNodeParseError` from src/common_types.rs.  The `UnexpectedNode`
diagnostic string is carried as a character list; its text is produced by
`debugMsg` below, abstracting the Rust `write!("{:?}", ...)` formatting
whose exact rendering no property depends on. -/
inductive ModelNodeParseError where
  | uuidParseError
  | timestampParseError
  | macAddressParseError
  | unexpectedEnumValue
  | unknownNewestEventsType
  | nodeTooDeep
  | stringTooLong
  | unexpectedMapArrayEnd
  | unexpectedParserState
  | unexpectedNode (msg : List Char)
deriving DecidableEq, Repr

/-! ## Parser options and bounded string copy (src/parser_options.rs) -/

/-- `ParserOptions` from src/parser_options.rs. -/
structure ParserOptions where
  truncateTooLongString : Bool
deriving DecidableEq, Repr

/-- `ParserOptions::default()`: truncate policy. -/
def defaultParserOptions : ParserOptions := ⟨true⟩

/-- `copy_string_possible` from src/parser_options.rs: push characters
one at a time until one no longer fits in the remaining byte capacity,
then stop (the loop breaks at the first failing push). -/
def copyStringPossible (n : Nat) : List Char → List Char
  | [] => []
  | c :: t =>
    if c.utf8Size ≤ n then c :: copyStringPossible (n - c.utf8Size) t
    else []

/-- `copy_string_option` from src/parser_options.rs: truncate policy
keeps what fits, reject policy errors with `StringTooLong` whenever the
whole string does not fit (`heapless::String::from_str`). -/
def copyStringOption (n : Nat) (opts : ParserOptions) (s : List Char) :
    Except ModelNodeParseError (List Char) :=
  if opts.truncateTooLongString then .ok (copyStringPossible n s)
  else if utf8Len s ≤ n then .ok s
  else .error .stringTooLong

/-! ## MAC address parsing (src/device.rs) -/

/-- The hexadecimal character set accepted by `parse_byte_string`
(`one_of("0123456789ABCDEFabcdef")`). -/
def hexChars : List Char := "0123456789ABCDEFabcdef".toList

def isHexChar (c : Char) : Bool := hexChars.contains c

/-- Value of a hexadecimal digit, as computed by `u8::from_str_radix`. -/
def hexVal (c : Char) : Nat :=
  if '0' ≤ c ∧ c ≤ '9' then c.toNat - '0'.toNat
  else if 'A' ≤ c ∧ c ≤ 'F' then c.toNat - 'A'.toNat + 10
  else if 'a' ≤ c ∧ c ≤ 'f' then c.toNat - 'a'.toNat + 10
  else 0

/-- The delimiter set of `parse_mac_address` (`one_of(":-")`). -/
def delimChars : List Char := ":-".toList

def isDelimChar (c : Char) : Bool := delimChars.contains c

/-- `MacAddress` from src/device.rs: exactly six bytes. -/
structure MacAddress where
  b0 : Nat
  b1 : Nat
  b2 : Nat
  b3 : Nat
  b4 : Nat
  b5 : Nat
deriving DecidableEq, Repr

/-- `MacAddress::default()`. -/
def defaultMacAddress : MacAddress := ⟨0, 0, 0, 0, 0, 0⟩

/-- `parse_byte_string` from src/device.rs: two hexadecimal characters
combined into one byte value. -/
def parseByteString : List Char → Option (Nat × List Char)
  | a :: b :: rest =>
    if isHexChar a && isHexChar b then some (16 * hexVal a + hexVal b, rest)
    else none
  | _ => none

/-- The delimiter parser used between octets in `parse_mac_address`. -/
def parseDelimiter : List Char → Option (List Char)
  | c :: rest => if isDelimChar c then some rest else none
  | _ => none

/-- Combined value of two hexadecimal digit characters, as one byte. -/
def byteOf (a b : Char) : Nat := 16 * hexVal a + hexVal b

/-- Innermost level of the `separated_pair` nesting of
`parse_mac_address`: the sixth octet alone. -/
def parseMacTail1 (s : List Char) : Option (Nat × List Char) :=
  parseByteString s

/-- `separated_pair(parse_byte_string, one_of(":-"), <tail1>)`. -/
def parseMacTail2 (s : List Char) : Option ((Nat × Nat) × List Char) := do
  let (b, s) ← parseByteString s
  let s ← parseDelimiter s
  let (r, s) ← parseMacTail1 s
  some ((b, r), s)

/-- `separated_pair(parse_byte_string, one_of(":-"), <tail2>)`. -/
def parseMacTail3 (s : List Char) :
    Option ((Nat × Nat × Nat) × List Char) := do
  let (b, s) ← parseByteString s
  let s ← parseDelimiter s
  let (r, s) ← parseMacTail2 s
  some ((b, r), s)

/-- `separated_pair(parse_byte_string, one_of(":-"), <tail3>)`. -/
def parseMacTail4 (s : List Char) :
    Option ((Nat × Nat × Nat × Nat) × List Char) := do
  let (b, s) ← parseByteString s
  let s ← parseDelimiter s
  let (r, s) ← parseMacTail3 s
  some ((b, r), s)

/-- `separated_pair(parse_byte_string, one_of(":-"), <tail4>)`. -/
def parseMacTail5 (s : List Char) :
    Option ((Nat × Nat × Nat × Nat × Nat) × List Char) := do
  let (b, s) ← parseByteString s
  let s ← parseDelimiter s
  let (r, s) ← parseMacTail4 s
  some ((b, r), s)

/-- `separated_pair(parse_byte_string, one_of(":-"), <tail5>)`: the full
six-octet nesting of `parse_mac_address`. -/
def parseMacTail6 (s : List Char) :
    Option ((Nat × Nat × Nat × Nat × Nat × Nat) × List Char) := do
  let (b, s) ← parseByteString s
  let s ← parseDelimiter s
  let (r, s) ← parseMacTail5 s
  some ((b, r), s)

/-- `parse_mac_address` from src/device.rs: six 2-digit hexadecimal
octets separated by single delimiter characters, the nested
`separated_pair` tuple flattened into the 6-byte array by the final
`map` (`|(l, r)| [l, r.0, r.1.0, ...]`); the remaining input is
returned unconsumed. -/
def parseMacAddress (s : List Char) : Option (MacAddress × List Char) :=
  (parseMacTail6 s).map fun (t, rest) =>
    (⟨t.1, t.2.1, t.2.2.1, t.2.2.2.1, t.2.2.2.2.1, t.2.2.2.2.2⟩, rest)

/-- `MacAddress::from_str` from src/device.rs: runs `parse_mac_address`
and discards the unconsumed remainder; failure maps to
`MacAddressParseError`. -/
def macAddressFromStr (s : List Char) :
    Except ModelNodeParseError MacAddress :=
  match parseMacAddress s with
  | some (m, _) => .ok m
  | none => .error .macAddressParseError

/-! ## JSON structural events (interface of the external tokenizer) -/

/-- Modelled from the spec: the numeric payload of the external
tokenizer's scalar events (§6); it distinguishes an integer form from a
floating form (`JsonNumber::I32` is matched in src/appliances.rs).  The
floating payload is carried as an exact integer token because no
verified property inspects floating-point arithmetic. -/
inductive JsonNumber where
  | i32 (n : Int)
  | f32 (v : Int)
deriving DecidableEq, Repr

/-- Modelled from the spec: the scalar payload of the external
tokenizer's events (§6): string, number, boolean or null. -/
inductive JsonScalarValue where
  | string (s : List Char)
  | number (n : JsonNumber)
  | boolean (b : Bool)
  | null
deriving DecidableEq, Repr

/-- Modelled from the spec: the structural events produced by the
external tokenizer (§6): start/end of object, start/end of array, key,
scalar value. -/
inductive JsonNode where
  | startMap
  | endMap
  | startArray
  | endArray
  | key (v : JsonScalarValue)
  | value (v : JsonScalarValue)
deriving DecidableEq, Repr

/-! ## External scalar validators (spec §4.2, §6) -/

/-- Modelled from the spec: the external UUID validator (the `uuid`
crate is an out-of-scope collaborator).  A UUID is the canonical
8-4-4-4-12 hyphenated hexadecimal form, 36 characters. -/
structure Uuid where
  raw : List Char
deriving DecidableEq, Repr

/-- Modelled from the spec: well-formedness of the canonical UUID
string form. -/
def uuidWellFormed (s : List Char) : Bool :=
  s.length = 36 &&
  (List.range 36).all (fun i =>
    if i = 8 ∨ i = 13 ∨ i = 18 ∨ i = 23 then s.getD i ' ' = '-'
    else isHexChar (s.getD i ' '))

/-- Modelled from the spec: `Uuid::from_str`, malformed input yields
`UuidParseError` (src/common_types.rs `From<uuid::Error>`). -/
def uuidFromStr (s : List Char) : Except ModelNodeParseError Uuid :=
  if uuidWellFormed s then .ok ⟨s⟩ else .error .uuidParseError

/-- The nil UUID, `Uuid::default()`. -/
def defaultUuid : Uuid := ⟨"00000000-0000-0000-0000-000000000000".toList⟩

/-- Modelled from the spec: the external timestamp validator (the
`chrono` crate is an out-of-scope collaborator).  A timestamp is the
20-character ISO-8601 UTC form `YYYY-MM-DDTHH:MM:SSZ`. -/
structure Timestamp where
  raw : List Char
deriving DecidableEq, Repr

def isDigitChar (c : Char) : Bool := '0' ≤ c && c ≤ '9'

/-- Modelled from the spec: well-formedness of the ISO-8601 UTC
timestamp form. -/
def timestampWellFormed (s : List Char) : Bool :=
  s.length = 20 &&
  (List.range 20).all (fun i =>
    if i = 4 ∨ i = 7 then s.getD i ' ' = '-'
    else if i = 10 then s.getD i ' ' = 'T'
    else if i = 13 ∨ i = 16 then s.getD i ' ' = ':'
    else if i = 19 then s.getD i ' ' = 'Z'
    else isDigitChar (s.getD i ' '))

/-- Modelled from the spec: `Timestamp::from_str`, malformed input
yields `TimestampParseError` (src/common_types.rs
`From<chrono::ParseError>`). -/
def timestampFromStr (s : List Char) : Except ModelNodeParseError Timestamp :=
  if timestampWellFormed s then .ok ⟨s⟩ else .error .timestampParseError

/-- The Unix-epoch timestamp, the `Default` of `DateTime<Utc>`. -/
def defaultTimestamp : Timestamp := ⟨"1970-01-01T00:00:00Z".toList⟩

/-! ## Field-key resolver (src/node_key.rs) -/

/-- `ModelNodeKey` from src/node_key.rs. -/
inductive ModelNodeKey where
  | name
  | id
  | createdAt
  | updatedAt
  | macAddress
  | btMacAddress
  | serialNumber
  | firmwareVersion
  | temperatureOffset
  | humidityOffset
  | users
  | nickName
  | superUser
  | newestEvents
  | te
  | hu
  | il
  | mo
  | val
  | device
  | model
  | type_
  | manufacturer
  | country
  | remoteName
  | series
  | image
  | smartMeter
  | echonetLiteProperties
  | epc
deriving DecidableEq, Repr

/-- `ModelNodeKey::try_from` from src/node_key.rs: case-sensitive exact
match against the wire key names; anything else is unrecognized. -/
def modelNodeKeyFromStr (s : List Char) : Option ModelNodeKey :=
  if s = "name".toList then some .name
  else if s = "id".toList then some .id
  else if s = "created_at".toList then some .createdAt
  else if s = "updated_at".toList then some .updatedAt
  else if s = "mac_address".toList then some .macAddress
  else if s = "bt_mac_address".toList then some .btMacAddress
  else if s = "serial_number".toList then some .serialNumber
  else if s = "firmware_version".toList then some .firmwareVersion
  else if s = "temperature_offset".toList then some .temperatureOffset
  else if s = "humidity_offset".toList then some .humidityOffset
  else if s = "users".toList then some .users
  else if s = "nickname".toList then some .nickName
  else if s = "superuser".toList then some .superUser
  else if s = "newest_events".toList then some .newestEvents
  else if s = "te".toList then some .te
  else if s = "hu".toList then some .hu
  else if s = "il".toList then some .il
  else if s = "mo".toList then some .mo
  else if s = "val".toList then some .val
  else if s = "device".toList then some .device
  else if s = "type".toList then some .type_
  else if s = "model".toList then some .model
  else if s = "manufacturer".toList then some .manufacturer
  else if s = "country".toList then some .country
  else if s = "remote_name".toList then some .remoteName
  else if s = "series".toList then some .series
  else if s = "image".toList then some .image
  else if s = "smart_meter".toList then some .smartMeter
  else if s = "echonetlite_properties".toList then some .echonetLiteProperties
  else if s = "epc".toList then some .epc
  else none

/-! ## Domain records (src/device.rs, src/appliances.rs) -/

/-- `Device` from src/device.rs.  The two `f32` offset fields store the
incoming numeric payload unconverted, since no verified property
inspects floating-point arithmetic. -/
structure Device where
  id : Uuid
  name : List Char
  temperature_offset : JsonNumber
  humidity_offset : JsonNumber
  created_at : Timestamp
  updated_at : Timestamp
  firmware_version : List Char
  mac_address : MacAddress
  bt_mac_address : MacAddress
  serial_number : List Char
deriving DecidableEq, Repr

/-- `Device::default()`. -/
def defaultDevice : Device :=
  { id := defaultUuid
    name := []
    temperature_offset := .f32 0
    humidity_offset := .f32 0
    created_at := defaultTimestamp
    updated_at := defaultTimestamp
    firmware_version := []
    mac_address := defaultMacAddress
    bt_mac_address := defaultMacAddress
    serial_number := [] }

/-- `SensorValue` from src/device.rs. -/
structure SensorValue where
  val : JsonNumber
  created_at : Timestamp
deriving DecidableEq, Repr

def defaultSensorValue : SensorValue := ⟨.f32 0, defaultTimestamp⟩

/-- `User` from src/device.rs. -/
structure User where
  id : Uuid
  nickname : List Char
  superuser : Bool
deriving DecidableEq, Repr

def defaultUser : User := ⟨defaultUuid, [], false⟩

/-- `NewestEvents` from src/device.rs. -/
structure NewestEvents where
  temperature : Option SensorValue
  humidity : Option SensorValue
  illumination : Option SensorValue
  motion : Option SensorValue
deriving DecidableEq, Repr

def defaultNewestEvents : NewestEvents := ⟨none, none, none, none⟩

/-- `DeviceSubNode` from src/device.rs. -/
inductive DeviceSubNode where
  | user (u : User)
  | newestEvents (n : NewestEvents)
deriving DecidableEq, Repr

/-- `ApplianceType` from src/appliances.rs. -/
inductive ApplianceType where
  | ac
  | tv
  | light
  | ir
  | smartMeter
  | electricWaterHeater
  | powerDistMeter
  | evcd
  | solarPower
  | storageBattery
  | qrioLock
  | morninPlus
deriving DecidableEq, Repr

/-- `ApplianceType::try_from` from src/appliances.rs: exact match
against the fixed literal table. -/
def applianceTypeFromStr (s : List Char) : Option ApplianceType :=
  if s = "AC".toList then some .ac
  else if s = "TV".toList then some .tv
  else if s = "LIGHT".toList then some .light
  else if s = "IR".toList then some .ir
  else if s = "EL_SMART_METER".toList then some .smartMeter
  else if s = "EL_ELECTRIC_WATER_HEATER".toList then some .electricWaterHeater
  else if s = "EL_POWER_DIST_METER".toList then some .powerDistMeter
  else if s = "EL_EVCD".toList then some .evcd
  else if s = "EL_SOLAR_POWER".toList then some .solarPower
  else if s = "EL_STORAGE_BATTERY".toList then some .storageBattery
  else if s = "QRIO_LOCK".toList then some .qrioLock
  else if s = "MORNIN_PLUS".toList then some .morninPlus
  else none

/-- `Appliance` from src/appliances.rs. -/
structure Appliance where
  id : Uuid
  type_ : ApplianceType
  nickname : List Char
  image : List Char
deriving DecidableEq, Repr

/-- `Appliance::default()` (`ApplianceType::default()` is `AC`). -/
def defaultAppliance : Appliance := ⟨defaultUuid, .ac, [], []⟩

/-- `EchonetLiteProperty` from src/appliances.rs.  `epc` is a `u32`;
the `n as u32` cast of the incoming `i32` payload is modelled by the
two's-complement reduction modulo `2 ^ 32`. -/
structure EchonetLiteProperty where
  name : List Char
  epc : Nat
  val : List Char
  updated_at : Timestamp
deriving DecidableEq, Repr

def defaultEchonetLiteProperty : EchonetLiteProperty :=
  ⟨[], 0, [], defaultTimestamp⟩

/-- `ApplianceModel` from src/appliances.rs. -/
structure ApplianceModel where
  id : Uuid
  country : List Char
  manufacturer : List Char
  remote_name : List Char
  series : List Char
  name : List Char
  image : List Char
deriving DecidableEq, Repr

def defaultApplianceModel : ApplianceModel :=
  ⟨defaultUuid, [], [], [], [], [], []⟩

/-- `ApplianceSubNode` from src/appliances.rs. -/
inductive ApplianceSubNode where
  | device (d : Device)
  | model (m : ApplianceModel)
  | echonetLiteProperty (p : EchonetLiteProperty)
deriving DecidableEq, Repr

/-! ## The devices state machine (`read_devices`, src/device.rs) -/

/-- `NewestEventType` from src/device.rs. -/
inductive NewestEventType where
  | temperature
  | humidity
  | illumination
  | motion
deriving DecidableEq, Repr

/-- `DevicesParserState` from src/device.rs. -/
inductive DevicesParserState where
  | start
  | devicesArray
  | deviceMap
  | usersArray
  | userMap
  | newestEventsMap
  | newestEventMap (t : NewestEventType)
  | unknownMapArray
deriving DecidableEq, Repr

/-- The mutable state of the `read_devices` event closure: the record
being built, the reusable sub-record slot, the current context, the
pending key, and the two unknown-subtree depth counters.  The counters
are `usize` in the source; they are carried as `Int` so that the
decrements of the close arms are exact (no value reachable by the
closure ever drives them negative or near the `usize` wrap). -/
structure DevicesConfig where
  device : Device
  subnode : DeviceSubNode
  state : DevicesParserState
  nodeKey : Option ModelNodeKey
  unknownMapDepth : Int
  unknownArrayDepth : Int
deriving DecidableEq, Repr

/-- The initial closure state of `read_devices`. -/
def devicesInit : DevicesConfig :=
  { device := defaultDevice
    subnode := .user defaultUser
    state := .start
    nodeKey := none
    unknownMapDepth := 0
    unknownArrayDepth := 0 }

/-- How a single `read_devices` step can abort: an error returned
through the closure, or a Rust `panic!` / `Option::unwrap` panic. -/
inductive DevicesAbort where
  | parseError (e : ModelNodeParseError)
  | panicked
deriving DecidableEq, Repr

/-- One callback observation: the borrowed parent record and the
optional borrowed sub-record, copied at the instant of the call. -/
abbrev DevicesCallback := Device × Option DeviceSubNode

/-- Tag names used to assemble the `UnexpectedNode` diagnostic of the
catch-all arm; the Rust code formats the offending (state, node) pair
with `write!("{:?}", ...)`, whose exact text no property depends on. -/
def devicesStateTag : DevicesParserState → List Char
  | .start => "Start".toList
  | .devicesArray => "DevicesArray".toList
  | .deviceMap => "DeviceMap".toList
  | .usersArray => "UsersArray".toList
  | .userMap => "UserMap".toList
  | .newestEventsMap => "NewestEventsMap".toList
  | .newestEventMap _ => "NewestEventMap".toList
  | .unknownMapArray => "UnknownMapArray".toList

def jsonNodeTag : JsonNode → List Char
  | .startMap => "StartMap".toList
  | .endMap => "EndMap".toList
  | .startArray => "StartArray".toList
  | .endArray => "EndArray".toList
  | .key _ => "Key".toList
  | .value _ => "Value".toList

def debugMsg (st : DevicesParserState) (nd : JsonNode) : List Char :=
  devicesStateTag st ++ '/' :: jsonNodeTag nd

/-- The `DeviceMap` scalar table shared verbatim by src/device.rs
(lines 201-233) and src/appliances.rs (lines 222-254): apply a
recognized (key, value) pair to the device record, silently ignoring
every unmatched combination. -/
def applyDeviceField (opts : ParserOptions) (dev : Device)
    (k : ModelNodeKey) (v : JsonScalarValue) :
    Except ModelNodeParseError Device :=
  match k, v with
  | .name, .string s =>
    (copyStringOption MAX_DEVICE_NAME_LEN opts s).map
      fun x => { dev with name := x }
  | .id, .string s => (uuidFromStr s).map fun x => { dev with id := x }
  | .createdAt, .string s =>
    (timestampFromStr s).map fun x => { dev with created_at := x }
  | .updatedAt, .string s =>
    (timestampFromStr s).map fun x => { dev with updated_at := x }
  | .macAddress, .string s =>
    (macAddressFromStr s).map fun x => { dev with mac_address := x }
  | .btMacAddress, .string s =>
    (macAddressFromStr s).map fun x => { dev with bt_mac_address := x }
  | .serialNumber, .string s =>
    (copyStringOption SERIAL_NUMBER_LEN opts s).map
      fun x => { dev with serial_number := x }
  | .firmwareVersion, .string s =>
    (copyStringOption MAX_FIRMWARE_VERSION_LEN opts s).map
      fun x => { dev with firmware_version := x }
  | .temperatureOffset, .number n =>
    .ok { dev with temperature_offset := n }
  | .humidityOffset, .number n => .ok { dev with humidity_offset := n }
  | _, _ => .ok dev

/-- The `UserMap` scalar table of src/device.rs (lines 273-284). -/
def applyUserField (opts : ParserOptions) (u : User)
    (k : ModelNodeKey) (v : JsonScalarValue) :
    Except ModelNodeParseError User :=
  match k, v with
  | .id, .string s => (uuidFromStr s).map fun x => { u with id := x }
  | .nickName, .string s =>
    (copyStringOption MAX_NICKNAME_LEN opts s).map
      fun x => { u with nickname := x }
  | .superUser, .boolean b => .ok { u with superuser := b }
  | _, _ => .ok u

/-- The `NewestEventMap` scalar table of src/device.rs (lines 343-351);
the key is the already-taken pending key. -/
def applySensorField (sv : SensorValue) (k : Option ModelNodeKey)
    (v : JsonScalarValue) : Except ModelNodeParseError SensorValue :=
  match k, v with
  | some .val, .number n => .ok { sv with val := n }
  | some .createdAt, .string s =>
    (timestampFromStr s).map fun x => { sv with created_at := x }
  | _, _ => .ok sv

def getSensor (ne : NewestEvents) : NewestEventType → Option SensorValue
  | .temperature => ne.temperature
  | .humidity => ne.humidity
  | .illumination => ne.illumination
  | .motion => ne.motion

def setSensor (ne : NewestEvents) (t : NewestEventType)
    (sv : SensorValue) : NewestEvents :=
  match t with
  | .temperature => { ne with temperature := some sv }
  | .humidity => { ne with humidity := some sv }
  | .illumination => { ne with illumination := some sv }
  | .motion => { ne with motion := some sv }

/-- One step of the `read_devices` event closure (src/device.rs lines
175-393): the list of callback invocations the step performs, and
either the updated closure state or the abort. -/
def devicesStep (opts : ParserOptions) (cfg : DevicesConfig)
    (node : JsonNode) :
    List DevicesCallback × Except DevicesAbort DevicesConfig :=
  match node with
  | .key v =>
    match v with
    | .string s =>
      ([], .ok { cfg with nodeKey := modelNodeKeyFromStr s })
    | _ => ([], .ok cfg)
  | .startArray =>
    match cfg.state with
    | .start => ([], .ok { cfg with state := .devicesArray })
    | .deviceMap =>
      match cfg.nodeKey with
      | some .users =>
        ([(cfg.device, none)],
         .ok { cfg with state := .usersArray, nodeKey := none })
      | _ =>
        ([], .ok { cfg with state := .unknownMapArray, nodeKey := none,
                            unknownArrayDepth := cfg.unknownArrayDepth + 1 })
    | .unknownMapArray =>
      ([], .ok { cfg with unknownArrayDepth := cfg.unknownArrayDepth + 1 })
    | st =>
      ([], .error (.parseError (.unexpectedNode (debugMsg st .startArray))))
  | .startMap =>
    match cfg.state with
    | .devicesArray => ([], .ok { cfg with state := .deviceMap })
    | .deviceMap =>
      match cfg.nodeKey with
      | some .newestEvents =>
        ([], .ok { cfg with state := .newestEventsMap, nodeKey := none,
                            subnode := .newestEvents defaultNewestEvents })
      | _ =>
        ([], .ok { cfg with state := .unknownMapArray, nodeKey := none,
                            unknownMapDepth := cfg.unknownMapDepth + 1 })
    | .usersArray =>
      ([], .ok { cfg with state := .userMap, subnode := .user defaultUser })
    | .newestEventsMap =>
      match cfg.subnode with
      | .newestEvents ne =>
        match cfg.nodeKey with
        | some .te =>
          ([], .ok { cfg with
            state := .newestEventMap .temperature, nodeKey := none,
            subnode := .newestEvents
              { ne with temperature := some defaultSensorValue } })
        | some .hu =>
          ([], .ok { cfg with
            state := .newestEventMap .humidity, nodeKey := none,
            subnode := .newestEvents
              { ne with humidity := some defaultSensorValue } })
        | some .il =>
          ([], .ok { cfg with
            state := .newestEventMap .illumination, nodeKey := none,
            subnode := .newestEvents
              { ne with illumination := some defaultSensorValue } })
        | some .mo =>
          ([], .ok { cfg with
            state := .newestEventMap .motion, nodeKey := none,
            subnode := .newestEvents
              { ne with motion := some defaultSensorValue } })
        | _ => ([], .error (.parseError .unknownNewestEventsType))
      | .user _ => ([], .error .panicked)
    | .unknownMapArray =>
      ([], .ok { cfg with unknownMapDepth := cfg.unknownMapDepth + 1 })
    | st =>
      ([], .error (.parseError (.unexpectedNode (debugMsg st .startMap))))
  | .endArray =>
    match cfg.state with
    | .devicesArray => ([], .ok { cfg with state := .start })
    | .usersArray => ([], .ok { cfg with state := .deviceMap })
    | .unknownMapArray =>
      let d := cfg.unknownArrayDepth - 1
      if d = 0 ∧ cfg.unknownMapDepth = 0 then
        ([], .ok { cfg with state := .deviceMap, unknownArrayDepth := d })
      else
        ([], .ok { cfg with unknownArrayDepth := d })
    | st =>
      ([], .error (.parseError (.unexpectedNode (debugMsg st .endArray))))
  | .endMap =>
    match cfg.state with
    | .deviceMap => ([], .ok { cfg with state := .devicesArray })
    | .userMap =>
      ([(cfg.device, some cfg.subnode)],
       .ok { cfg with state := .usersArray })
    | .newestEventsMap =>
      ([(cfg.device, some cfg.subnode)],
       .ok { cfg with state := .deviceMap })
    | .newestEventMap _ =>
      ([], .ok { cfg with state := .newestEventsMap })
    | .unknownMapArray =>
      let d := cfg.unknownMapDepth - 1
      if cfg.unknownArrayDepth = 0 ∧ d = 0 then
        ([], .ok { cfg with state := .deviceMap, unknownMapDepth := d })
      else
        ([], .ok { cfg with unknownMapDepth := d })
    | st =>
      ([], .error (.parseError (.unexpectedNode (debugMsg st .endMap))))
  | .value v =>
    match cfg.state with
    | .deviceMap =>
      match cfg.nodeKey with
      | some k =>
        match applyDeviceField opts cfg.device k v with
        | .ok d => ([], .ok { cfg with device := d, nodeKey := none })
        | .error e => ([], .error (.parseError e))
      | none => ([], .ok cfg)
    | .userMap =>
      match cfg.subnode with
      | .user u =>
        match cfg.nodeKey with
        | some k =>
          match applyUserField opts u k v with
          | .ok u2 =>
            ([], .ok { cfg with subnode := .user u2, nodeKey := none })
          | .error e => ([], .error (.parseError e))
        | none => ([], .ok cfg)
      | .newestEvents _ => ([], .ok cfg)
    | .newestEventMap t =>
      match cfg.subnode with
      | .newestEvents ne =>
        match getSensor ne t with
        | none => ([], .error .panicked)
        | some sv =>
          match applySensorField sv cfg.nodeKey v with
          | .ok sv2 =>
            ([], .ok { cfg with subnode := .newestEvents (setSensor ne t sv2),
                                nodeKey := none })
          | .error e => ([], .error (.parseError e))
      | .user _ => ([], .ok cfg)
    | .unknownMapArray => ([], .ok cfg)
    | st =>
      ([], .error (.parseError (.unexpectedNode (debugMsg st (.value v)))))

/-- Feeding a whole event sequence to the `read_devices` closure:
the callback trace observed, and the final closure state or the abort
that stopped the run. -/
def devicesRun (opts : ParserOptions) (cfg : DevicesConfig) :
    List JsonNode → List DevicesCallback × Except DevicesAbort DevicesConfig
  | [] => ([], .ok cfg)
  | n :: rest =>
    match devicesStep opts cfg n with
    | (cbs, .ok cfg2) =>
      let r := devicesRun opts cfg2 rest
      (cbs ++ r.1, r.2)
    | (cbs, .error e) => (cbs, .error e)

/-! ## The appliances state machine (`read_appliances`, src/appliances.rs) -/

/-- `AppliancesParserState` from src/appliances.rs. -/
inductive AppliancesParserState where
  | start
  | appliancesArray
  | applianceMap
  | deviceMap
  | modelMap
  | smartMeterMap
  | echonetLitePropertiesArray
  | echonetLitePropertyMap
  | unknownMap
  | unknownArray
deriving DecidableEq, Repr

/-- `AppliancesParserState::is_map_state` from src/appliances.rs. -/
def isMapState : AppliancesParserState → Bool
  | .applianceMap => true
  | .deviceMap => true
  | .modelMap => true
  | .smartMeterMap => true
  | .echonetLitePropertyMap => true
  | _ => false

/-- `AppliancesParserState::is_array_state` from src/appliances.rs. -/
def isArrayState : AppliancesParserState → Bool
  | .appliancesArray => true
  | .echonetLitePropertiesArray => true
  | .unknownArray => true
  | _ => false

/-- The mutable state of the `read_appliances` event closure.  The
bounded context stack `heapless::Vec<_, 10>` is carried as a list whose
head is the top (a `Vec` push appends, a pop removes the appended end);
`pushBounded` below enforces the capacity of 10. -/
structure AppliancesConfig where
  appliance : Appliance
  subnode : ApplianceSubNode
  state : AppliancesParserState
  nodeKey : Option ModelNodeKey
  stateStack : List AppliancesParserState
deriving DecidableEq, Repr

/-- The initial closure state of `read_appliances`. -/
def appliancesInit : AppliancesConfig :=
  { appliance := defaultAppliance
    subnode := .device defaultDevice
    state := .start
    nodeKey := none
    stateStack := [] }

abbrev AppliancesCallback := Appliance × Option ApplianceSubNode

/-- `heapless::Vec::push` on the 10-entry context stack: fails exactly
when the stack is full. -/
def pushBounded (stack : List AppliancesParserState)
    (st : AppliancesParserState) : Option (List AppliancesParserState) :=
  if stack.length < 10 then some (st :: stack) else none

/-- The `ApplianceMap` scalar table of src/appliances.rs (lines
260-276). -/
def applyApplianceField (opts : ParserOptions) (a : Appliance)
    (k : ModelNodeKey) (v : JsonScalarValue) :
    Except ModelNodeParseError Appliance :=
  match k, v with
  | .nickName, .string s =>
    (copyStringOption MAX_NICKNAME_LEN opts s).map
      fun x => { a with nickname := x }
  | .id, .string s => (uuidFromStr s).map fun x => { a with id := x }
  | .type_, .string s =>
    match applianceTypeFromStr s with
    | some t => .ok { a with type_ := t }
    | none => .error .unexpectedEnumValue
  | .image, .string s =>
    (copyStringOption MAX_IMAGE_LEN opts s).map fun x => { a with image := x }
  | _, _ => .ok a

/-- The `ModelMap` scalar table of src/appliances.rs (lines 285-310). -/
def applyApplianceModelField (opts : ParserOptions) (m : ApplianceModel)
    (k : ModelNodeKey) (v : JsonScalarValue) :
    Except ModelNodeParseError ApplianceModel :=
  match k, v with
  | .name, .string s =>
    (copyStringOption MAX_MODEL_NAME_LEN opts s).map
      fun x => { m with name := x }
  | .id, .string s => (uuidFromStr s).map fun x => { m with id := x }
  | .country, .string s =>
    (copyStringOption MAX_COUNTRY_LEN opts s).map
      fun x => { m with country := x }
  | .manufacturer, .string s =>
    (copyStringOption MAX_MANUFACTURER_LEN opts s).map
      fun x => { m with manufacturer := x }
  | .remoteName, .string s =>
    (copyStringOption MAX_REMOTE_NAME_LEN opts s).map
      fun x => { m with remote_name := x }
  | .series, .string s =>
    (copyStringOption MAX_SERIES_LEN opts s).map
      fun x => { m with series := x }
  | .image, .string s =>
    (copyStringOption MAX_IMAGE_LEN opts s).map fun x => { m with image := x }
  | _, _ => .ok m

/-- The `EchonetLitePropertyMap` scalar table of src/appliances.rs
(lines 319-334); only an `I32` numeric payload is accepted for `epc`. -/
def applyEchonetField (opts : ParserOptions) (p : EchonetLiteProperty)
    (k : ModelNodeKey) (v : JsonScalarValue) :
    Except ModelNodeParseError EchonetLiteProperty :=
  match k, v with
  | .name, .string s =>
    (copyStringOption MAX_ECHONET_LITE_NAME_LEN opts s).map
      fun x => { p with name := x }
  | .epc, .number (.i32 n) => .ok { p with epc := (n % 4294967296).toNat }
  | .val, .string s =>
    (copyStringOption MAX_ECHONET_LITE_VALUE_LEN opts s).map
      fun x => { p with val := x }
  | .updatedAt, .string s =>
    (timestampFromStr s).map fun x => { p with updated_at := x }
  | _, _ => .ok p

/-- One step of the `read_appliances` event closure (src/appliances.rs
lines 151-356): the callback invocations the step performs, and either
the updated closure state or the error.  On an open event the old
context is pushed first (`NodeTooDeep` if the stack is full); on a
close event of the matching container kind the callback decision of
lines 189-203 runs before the pop, so an empty-stack close still emits
its callback before failing with `UnexpectedMapArrayEnd`. -/
def appliancesStep (opts : ParserOptions) (cfg : AppliancesConfig)
    (node : JsonNode) :
    List AppliancesCallback × Except ModelNodeParseError AppliancesConfig :=
  match node with
  | .startArray =>
    match pushBounded cfg.stateStack cfg.state with
    | none => ([], .error .nodeTooDeep)
    | some stack2 =>
      let newState : AppliancesParserState :=
        match cfg.state, cfg.nodeKey with
        | .start, _ => .appliancesArray
        | .smartMeterMap, some .echonetLiteProperties =>
          .echonetLitePropertiesArray
        | _, _ => .unknownArray
      ([], .ok { cfg with state := newState, nodeKey := none,
                          stateStack := stack2 })
  | .startMap =>
    match pushBounded cfg.stateStack cfg.state with
    | none => ([], .error .nodeTooDeep)
    | some stack2 =>
      match cfg.state, cfg.nodeKey with
      | .appliancesArray, _ =>
        ([], .ok { cfg with state := .applianceMap, nodeKey := none,
                            stateStack := stack2 })
      | .applianceMap, some .device =>
        ([], .ok { cfg with state := .deviceMap, nodeKey := none,
                            subnode := .device defaultDevice,
                            stateStack := stack2 })
      | .applianceMap, some .model =>
        ([], .ok { cfg with state := .modelMap, nodeKey := none,
                            subnode := .model defaultApplianceModel,
                            stateStack := stack2 })
      | .applianceMap, some .smartMeter =>
        ([], .ok { cfg with state := .smartMeterMap, nodeKey := none,
                            stateStack := stack2 })
      | .echonetLitePropertiesArray, _ =>
        ([], .ok { cfg with state := .echonetLitePropertyMap,
                            nodeKey := none,
                            subnode :=
                              .echonetLiteProperty defaultEchonetLiteProperty,
                            stateStack := stack2 })
      | _, _ =>
        ([], .ok { cfg with state := .unknownMap, nodeKey := none,
                            stateStack := stack2 })
  | .endArray =>
    if isArrayState cfg.state then
      match cfg.stateStack with
      | prev :: rest =>
        ([], .ok { cfg with state := prev, stateStack := rest })
      | [] => ([], .error .unexpectedMapArrayEnd)
    else ([], .error .unexpectedMapArrayEnd)
  | .endMap =>
    if isMapState cfg.state then
      let cbs : List AppliancesCallback :=
        match cfg.state with
        | .unknownMap => []
        | .smartMeterMap => []
        | .applianceMap => [(cfg.appliance, none)]
        | _ => [(cfg.appliance, some cfg.subnode)]
      match cfg.stateStack with
      | prev :: rest =>
        (cbs, .ok { cfg with state := prev, stateStack := rest })
      | [] => (cbs, .error .unexpectedMapArrayEnd)
    else ([], .error .unexpectedMapArrayEnd)
  | .key v =>
    match v with
    | .string s =>
      ([], .ok { cfg with nodeKey := modelNodeKeyFromStr s })
    | _ => ([], .ok cfg)
  | .value v =>
    match cfg.state with
    | .deviceMap =>
      match cfg.subnode with
      | .device d =>
        match cfg.nodeKey with
        | some k =>
          match applyDeviceField opts d k v with
          | .ok d2 =>
            ([], .ok { cfg with subnode := .device d2, nodeKey := none })
          | .error e => ([], .error e)
        | none => ([], .ok cfg)
      | _ => ([], .error .unexpectedParserState)
    | .applianceMap =>
      match cfg.nodeKey with
      | some k =>
        match applyApplianceField opts cfg.appliance k v with
        | .ok a2 => ([], .ok { cfg with appliance := a2, nodeKey := none })
        | .error e => ([], .error e)
      | none => ([], .ok cfg)
    | .modelMap =>
      match cfg.subnode with
      | .model m =>
        match cfg.nodeKey with
        | some k =>
          match applyApplianceModelField opts m k v with
          | .ok m2 =>
            ([], .ok { cfg with subnode := .model m2, nodeKey := none })
          | .error e => ([], .error e)
        | none => ([], .ok cfg)
      | _ => ([], .error .unexpectedParserState)
    | .echonetLitePropertyMap =>
      match cfg.subnode with
      | .echonetLiteProperty p =>
        match cfg.nodeKey with
        | some k =>
          match applyEchonetField opts p k v with
          | .ok p2 =>
            ([], .ok { cfg with subnode := .echonetLiteProperty p2,
                                nodeKey := none })
          | .error e => ([], .error e)
        | none => ([], .ok cfg)
      | _ => ([], .error .unexpectedParserState)
    | .unknownMap => ([], .ok cfg)
    | .unknownArray => ([], .ok cfg)
    | _ => ([], .error .unexpectedParserState)

/-- Feeding a whole event sequence to the `read_appliances` closure. -/
def appliancesRun (opts : ParserOptions) (cfg : AppliancesConfig) :
    List JsonNode →
    List AppliancesCallback × Except ModelNodeParseError AppliancesConfig
  | [] => ([], .ok cfg)
  | n :: rest =>
    match appliancesStep opts cfg n with
    | (cbs, .ok cfg2) =>
      let r := appliancesRun opts cfg2 rest
      (cbs ++ r.1, r.2)
    | (cbs, .error e) => (cbs, .error e)

/-! ## Emission protocol, spec side (§4.4) -/

/-- The callback emissions of one `read_devices` step as the code
performs them: the sub-record-present callback at the close of a user
entry or of the newest-events group, and the sub-record-absent callback
at the open of a recognized `users` array inside a device record. -/
def devicesEmissionSpec (cfg : DevicesConfig) (node : JsonNode) :
    List DevicesCallback :=
  match node, cfg.state with
  | .startArray, .deviceMap =>
    if cfg.nodeKey = some .users then [(cfg.device, none)] else []
  | .endMap, .userMap => [(cfg.device, some cfg.subnode)]
  | .endMap, .newestEventsMap => [(cfg.device, some cfg.subnode)]
  | _, _ => []

/-- The callback emissions of one `read_appliances` step, following the
spec's protocol (§4.4): the sub-record-absent callback exactly at the
close of an appliance record, the sub-record-present callback exactly
at the close of an embedded device, embedded model or echonet-lite
property, and nothing for the outer array, the smart-meter wrapper map
or unknown subtrees. -/
def appliancesEmissionSpec (cfg : AppliancesConfig) (node : JsonNode) :
    List AppliancesCallback :=
  match node, cfg.state with
  | .endMap, .applianceMap => [(cfg.appliance, none)]
  | .endMap, .deviceMap => [(cfg.appliance, some cfg.subnode)]
  | .endMap, .modelMap => [(cfg.appliance, some cfg.subnode)]
  | .endMap, .echonetLitePropertyMap => [(cfg.appliance, some cfg.subnode)]
  | _, _ => []

/-! ## Derived predicates and fixture event sequences -/

/-- The error kinds `read_devices` can produce through its closure:
everything except the three structural kinds reserved for the bounded
stack discipline of the appliances machine. -/
def devicesPossibleError : ModelNodeParseError → Bool
  | .nodeTooDeep => false
  | .unexpectedMapArrayEnd => false
  | .unexpectedParserState => false
  | _ => true

/-- Maximum open-container nesting reached over an event sequence. -/
def maxNesting (es : List JsonNode) : Int :=
  (es.foldl
    (fun (p : Int × Int) n =>
      match n with
      | .startMap => (p.1 + 1, max p.2 (p.1 + 1))
      | .startArray => (p.1 + 1, max p.2 (p.1 + 1))
      | .endMap => (p.1 - 1, p.2)
      | .endArray => (p.1 - 1, p.2)
      | _ => p)
    (0, 0)).2

/-- An event sequence whose unknown subtree inside the device record
drives the total nesting to depth 14. -/
def deepDevicesEvents : List JsonNode :=
  [.startArray, .startMap, .key (.string "zzz".toList)] ++
    List.replicate 12 .startMap ++ List.replicate 12 .endMap ++
    [.endMap, .endArray]

def isDeviceSubnode : ApplianceSubNode → Bool
  | .device _ => true
  | _ => false

def isModelSubnode : ApplianceSubNode → Bool
  | .model _ => true
  | _ => false

def isEchonetSubnode : ApplianceSubNode → Bool
  | .echonetLiteProperty _ => true
  | _ => false

def isUserSubnode : DeviceSubNode → Bool
  | .user _ => true
  | _ => false

def isNewestEventsSubnode : DeviceSubNode → Bool
  | .newestEvents _ => true
  | _ => false

/-- The event sequence of an appliances document in which a recognized
key appears inside an unknown map and is followed by a scalar. -/
def stalePendingKeyEvents : List JsonNode :=
  [.startArray, .startMap, .key (.string "foo".toList), .startMap,
   .key (.string "device".toList), .value (.string "x".toList)]

/-- Recognizer for the catch-all `UnexpectedNode` abort of the devices
machine. -/
def isUnexpectedNodeAbort : Except DevicesAbort DevicesConfig → Bool
  | .error (.parseError (.unexpectedNode _)) => true
  | _ => false

/-- The (key, scalar-kind) combinations that assign a device field in
the `DeviceMap` scalar table; everything else falls to the silent
catch-all. -/
def deviceFieldMatches : ModelNodeKey → JsonScalarValue → Bool
  | .name, .string _ => true
  | .id, .string _ => true
  | .createdAt, .string _ => true
  | .updatedAt, .string _ => true
  | .macAddress, .string _ => true
  | .btMacAddress, .string _ => true
  | .serialNumber, .string _ => true
  | .firmwareVersion, .string _ => true
  | .temperatureOffset, .number _ => true
  | .humidityOffset, .number _ => true
  | _, _ => false

/-- The (key, scalar-kind) combinations that assign an appliance field
in the `ApplianceMap` scalar table. -/
def applianceFieldMatches : ModelNodeKey → JsonScalarValue → Bool
  | .nickName, .string _ => true
  | .id, .string _ => true
  | .type_, .string _ => true
  | .image, .string _ => true
  | _, _ => false

/-- Positional well-formedness of one trailing octet (two hexadecimal
characters), the grammar recognized by the innermost parser level. -/
def macOk1 : List Char → Bool
  | a :: b :: _ => isHexChar a && isHexChar b
  | _ => false

def macVal1 : List Char → Nat
  | a :: b :: _ => byteOf a b
  | _ => 0

def macDrop1 : List Char → List Char
  | _ :: _ :: r => r
  | _ => []

/-- One octet, a delimiter, then the grammar one level down; levels 2-6
spell out, position by position, the claim's format of 2-digit
hexadecimal octets separated by colon or hyphen delimiters. -/
def macOk2 : List Char → Bool
  | a :: b :: d :: t =>
    isHexChar a && isHexChar b && isDelimChar d && macOk1 t
  | _ => false

def macVal2 : List Char → Nat × Nat
  | a :: b :: _ :: t => (byteOf a b, macVal1 t)
  | _ => (0, 0)

def macDrop2 : List Char → List Char
  | _ :: _ :: _ :: t => macDrop1 t
  | _ => []

def macOk3 : List Char → Bool
  | a :: b :: d :: t =>
    isHexChar a && isHexChar b && isDelimChar d && macOk2 t
  | _ => false

def macVal3 : List Char → Nat × Nat × Nat
  | a :: b :: _ :: t => (byteOf a b, macVal2 t)
  | _ => (0, 0, 0)

def macDrop3 : List Char → List Char
  | _ :: _ :: _ :: t => macDrop2 t
  | _ => []

def macOk4 : List Char → Bool
  | a :: b :: d :: t =>
    isHexChar a && isHexChar b && isDelimChar d && macOk3 t
  | _ => false

def macVal4 : List Char → Nat × Nat × Nat × Nat
  | a :: b :: _ :: t => (byteOf a b, macVal3 t)
  | _ => (0, 0, 0, 0)

def macDrop4 : List Char → List Char
  | _ :: _ :: _ :: t => macDrop3 t
  | _ => []

def macOk5 : List Char → Bool
  | a :: b :: d :: t =>
    isHexChar a && isHexChar b && isDelimChar d && macOk4 t
  | _ => false

def macVal5 : List Char → Nat × Nat × Nat × Nat × Nat
  | a :: b :: _ :: t => (byteOf a b, macVal4 t)
  | _ => (0, 0, 0, 0, 0)

def macDrop5 : List Char → List Char
  | _ :: _ :: _ :: t => macDrop4 t
  | _ => []

/-- Positional well-formedness of a six-octet MAC prefix: 17 leading
characters alternating 2-digit hexadecimal octets with single colon or
hyphen delimiters; anything may follow. -/
def macOk6 : List Char → Bool
  | a :: b :: d :: t =>
    isHexChar a && isHexChar b && isDelimChar d && macOk5 t
  | _ => false

def macVal6 : List Char → Nat × Nat × Nat × Nat × Nat × Nat
  | a :: b :: _ :: t => (byteOf a b, macVal5 t)
  | _ => (0, 0, 0, 0, 0, 0)

def macDrop6 : List Char → List Char
  | _ :: _ :: _ :: t => macDrop5 t
  | _ => []

/-- The six octet values of a well-formed MAC prefix, as a
`MacAddress`. -/
def macValueOf (s : List Char) : MacAddress :=
  let t := macVal6 s
  ⟨t.1, t.2.1, t.2.2.1, t.2.2.2.1, t.2.2.2.2.1, t.2.2.2.2.2⟩

/-- The input format named by the claim: a string formed of six
2-digit hexadecimal octets separated by colon or hyphen delimiters and
nothing else — a well-formed 17-character MAC prefix that is the whole
string. -/
def macClaimedExactForm (s : List Char) : Bool :=
  macOk6 s && s.length == 17

/-- An appliances run that has already failed ignores any further
input: the callback trace and the error are those of the failing
prefix.  This is the abort discipline of the driver loop — no further
events are processed and no further callbacks fire. -/
theorem appliancesRun_error_absorb (opts : ParserOptions)
    (fs : List JsonNode) :
    ∀ (es : List JsonNode) (cfg : AppliancesConfig)
      (e : ModelNodeParseError),
      (appliancesRun opts cfg es).2 = .error e →
      appliancesRun opts cfg (es ++ fs) = appliancesRun opts cfg es := by
  intro es
  induction es with
  | nil => intro cfg e h; simp [appliancesRun] at h
  | cons n rest ih =>
    intro cfg e h
    simp only [List.cons_append, appliancesRun] at h ⊢
    rcases hs : appliancesStep opts cfg n with ⟨cbs, r⟩
    rw [hs] at h
    cases r with
    | ok cfg2 =>
      dsimp only at h ⊢
      simp only [List.append_eq] at h ⊢
      rw [ih cfg2 e h]
    | error e2 => rfl

/-- C1: the devices counterexample.  The event sequence of a devices
document holding one device record — open array, open device map,
close device map, close array — is accepted without error, yet the
callback trace is empty: closing the device record's enclosing object
emits no callback, contrary to the claim. -/
theorem claim_C1_counterexample :
    devicesRun defaultParserOptions devicesInit
      [.startArray, .startMap, .endMap, .endArray] =
      ([], .ok devicesInit) := by decide

/-- C1 (amended): per-step characterization of the callback emission of
both machines.  `read_appliances` follows the spec protocol: the
sub-record-absent callback fires exactly when an appliance record
closes, the sub-record-present callback exactly when an embedded
device, model or echonet-lite property closes, and closing the outer
array, the smart-meter wrapper or an unknown subtree emits nothing.
`read_devices` emits the sub-record-present callback exactly when a
user entry or the newest-events group closes, but its sub-record-absent
callback fires when a recognized `users` array opens inside the device
record, not when the device record's enclosing object closes. -/
theorem claim_C1 (optsD optsA : ParserOptions) (cfgD : DevicesConfig)
    (cfgA : AppliancesConfig) (nodeD nodeA : JsonNode) :
    (devicesStep optsD cfgD nodeD).1 = devicesEmissionSpec cfgD nodeD ∧
    (appliancesStep optsA cfgA nodeA).1 = appliancesEmissionSpec cfgA nodeA := by
  constructor
  · obtain ⟨dev, sub, st, k, md, ad⟩ := cfgD
    cases nodeD <;> cases st <;>
      simp only [devicesStep, devicesEmissionSpec] <;>
      (repeat' split) <;> simp_all
  · obtain ⟨a, sub, st, k, stack⟩ := cfgA
    cases nodeA <;> cases st <;>
      simp only [appliancesStep, appliancesEmissionSpec] <;>
      (repeat' split) <;> simp_all [isMapState, isArrayState]

/-! ## Error classification helpers -/

theorem exceptMap_error {ε α β : Type} (x : Except ε α) (f : α → β)
    (e : ε) (h : x.map f = .error e) : x = .error e := by
  cases x with
  | ok a => exact absurd h (by simp [Except.map])
  | error e2 => simpa [Except.map] using h

theorem copyStringOption_error (n : Nat) (opts : ParserOptions)
    (s : List Char) (e : ModelNodeParseError)
    (h : copyStringOption n opts s = .error e) : e = .stringTooLong := by
  unfold copyStringOption at h
  split at h
  · exact absurd h (by simp)
  · split at h
    · exact absurd h (by simp)
    · cases h; rfl

theorem uuidFromStr_error (s : List Char) (e : ModelNodeParseError)
    (h : uuidFromStr s = .error e) : e = .uuidParseError := by
  unfold uuidFromStr at h
  split at h
  · exact absurd h (by simp)
  · cases h; rfl

theorem timestampFromStr_error (s : List Char) (e : ModelNodeParseError)
    (h : timestampFromStr s = .error e) : e = .timestampParseError := by
  unfold timestampFromStr at h
  split at h
  · exact absurd h (by simp)
  · cases h; rfl

theorem macAddressFromStr_error (s : List Char) (e : ModelNodeParseError)
    (h : macAddressFromStr s = .error e) : e = .macAddressParseError := by
  unfold macAddressFromStr at h
  split at h
  · exact absurd h (by simp)
  · cases h; rfl

theorem applyDeviceField_error (opts : ParserOptions) (dev : Device)
    (k : ModelNodeKey) (v : JsonScalarValue) (e : ModelNodeParseError)
    (h : applyDeviceField opts dev k v = .error e) :
    devicesPossibleError e = true := by
  cases k <;> cases v <;> simp only [applyDeviceField] at h <;>
    first
    | exact absurd h (by simp)
    | (have h2 := exceptMap_error _ _ _ h
       first
       | (rw [copyStringOption_error _ _ _ _ h2]; rfl)
       | (rw [uuidFromStr_error _ _ h2]; rfl)
       | (rw [timestampFromStr_error _ _ h2]; rfl)
       | (rw [macAddressFromStr_error _ _ h2]; rfl))

theorem applyUserField_error (opts : ParserOptions) (u : User)
    (k : ModelNodeKey) (v : JsonScalarValue) (e : ModelNodeParseError)
    (h : applyUserField opts u k v = .error e) :
    devicesPossibleError e = true := by
  cases k <;> cases v <;> simp only [applyUserField] at h <;>
    first
    | exact absurd h (by simp)
    | (have h2 := exceptMap_error _ _ _ h
       first
       | (rw [copyStringOption_error _ _ _ _ h2]; rfl)
       | (rw [uuidFromStr_error _ _ h2]; rfl))

theorem applySensorField_error (sv : SensorValue)
    (k : Option ModelNodeKey) (v : JsonScalarValue)
    (e : ModelNodeParseError) (h : applySensorField sv k v = .error e) :
    devicesPossibleError e = true := by
  rcases k with _ | k
  · cases v <;> simp only [applySensorField] at h <;> exact absurd h (by simp)
  · cases k <;> cases v <;> simp only [applySensorField] at h <;>
      first
      | exact absurd h (by simp)
      | (have h2 := exceptMap_error _ _ _ h
         rw [timestampFromStr_error _ _ h2]; rfl)

/-- Every error the `read_devices` closure can return is one of the
non-structural kinds: the machine has no bounded stack and no
container-kind check, so `NodeTooDeep`, `UnexpectedMapArrayEnd` and
`UnexpectedParserState` are never produced. -/
theorem devicesStep_errors (opts : ParserOptions) (cfg : DevicesConfig)
    (node : JsonNode) (e : ModelNodeParseError)
    (h : (devicesStep opts cfg node).2 = .error (.parseError e)) :
    devicesPossibleError e = true := by
  obtain ⟨dev, sub, st, k, md, ad⟩ := cfg
  cases node <;> cases st <;> simp only [devicesStep] at h <;>
    (repeat' split at h) <;> simp at h <;>
    first
    | (subst h; rfl)
    | (subst h
       solve_by_elim [applyDeviceField_error, applyUserField_error,
         applySensorField_error])

/-! ## Claim C2: bounded nesting and NodeTooDeep -/

/-- C2: the devices counterexample.  An event sequence nesting
containers to depth 14 — well beyond the claimed bound of 10 — is
accepted by the `read_devices` closure without any error: no
`NodeTooDeep` is ever raised because the machine tracks unknown
subtrees with unbounded depth counters instead of a bounded stack. -/
theorem claim_C2_counterexample :
    maxNesting deepDevicesEvents = 14 ∧
    devicesRun defaultParserOptions devicesInit deepDevicesEvents =
      ([], .ok devicesInit) := by decide

/-- C2 (amended): `read_appliances` enforces the bounded context stack:
any open event arriving with the 10-entry stack already full fails with
`NodeTooDeep` and emits no callback.  `read_devices` has no such bound:
no step of its closure ever produces `NodeTooDeep`. -/
theorem claim_C2 (opts : ParserOptions) (cfgA : AppliancesConfig)
    (nodeA : JsonNode) (cfgD : DevicesConfig) (nodeD : JsonNode) :
    (10 ≤ cfgA.stateStack.length →
      nodeA = .startArray ∨ nodeA = .startMap →
      appliancesStep opts cfgA nodeA = ([], .error .nodeTooDeep)) ∧
    (devicesStep opts cfgD nodeD).2 ≠
      .error (.parseError .nodeTooDeep) := by
  constructor
  · intro h1 h2
    have hlt : ¬ cfgA.stateStack.length < 10 := by omega
    rcases h2 with h2 | h2 <;> subst h2 <;>
      simp [appliancesStep, pushBounded, hlt]
  · intro h
    have := devicesStep_errors opts cfgD nodeD .nodeTooDeep h
    simp [devicesPossibleError] at this

/-- C2 witness: a concrete full stack makes the next open fail with
`NodeTooDeep`. -/
theorem claim_C2_witness :
    (10 ≤ (List.replicate 10 AppliancesParserState.start).length ∧
      appliancesStep defaultParserOptions
        { appliancesInit with
            stateStack := List.replicate 10 .start,
            state := .unknownMap }
        .startMap = ([], .error .nodeTooDeep)) ∧
    (devicesStep defaultParserOptions devicesInit .startArray).2 ≠
      .error (.parseError .nodeTooDeep) :=
  ⟨⟨by decide,
    (claim_C2 defaultParserOptions
      { appliancesInit with
          stateStack := List.replicate 10 .start, state := .unknownMap }
      .startMap devicesInit .startArray).1 (by decide) (Or.inr rfl)⟩,
   (claim_C2 defaultParserOptions
      { appliancesInit with
          stateStack := List.replicate 10 .start, state := .unknownMap }
      .startMap devicesInit .startArray).2⟩

/-! ## Claim C3: sub-record discriminant mismatch -/

/-- C3: the devices counterexample.  In the user-map context with the
sub-record slot holding the wrong discriminant (newest-events), a
scalar routed to a user field is silently dropped — the step succeeds,
changes nothing (the pending key is not even consumed), and no
`UnexpectedParserState` is raised, contrary to the claim. -/
theorem claim_C3_counterexample :
    devicesStep defaultParserOptions
      { devicesInit with
          state := .userMap,
          subnode := .newestEvents defaultNewestEvents,
          nodeKey := some .superUser }
      (.value (.boolean true)) =
      ([], .ok
        { devicesInit with
            state := .userMap,
            subnode := .newestEvents defaultNewestEvents,
            nodeKey := some .superUser }) := by decide

/-- C3 (amended): in `read_appliances`, a scalar routed to a sub-record
field while the active sub-record slot's discriminant does not match
the context (device map, model map, echonet-lite property map) fails
with the internal-invariant error `UnexpectedParserState`.  In
`read_devices`, the corresponding mismatch in the user map or a
newest-event map is not an error: the scalar is silently dropped and
the closure state is left completely unchanged. -/
theorem claim_C3 (opts : ParserOptions) (cfgA : AppliancesConfig)
    (cfgD : DevicesConfig) (v : JsonScalarValue) :
    (cfgA.state = .deviceMap → isDeviceSubnode cfgA.subnode = false →
      appliancesStep opts cfgA (.value v) =
        ([], .error .unexpectedParserState)) ∧
    (cfgA.state = .modelMap → isModelSubnode cfgA.subnode = false →
      appliancesStep opts cfgA (.value v) =
        ([], .error .unexpectedParserState)) ∧
    (cfgA.state = .echonetLitePropertyMap →
      isEchonetSubnode cfgA.subnode = false →
      appliancesStep opts cfgA (.value v) =
        ([], .error .unexpectedParserState)) ∧
    (cfgD.state = .userMap → isUserSubnode cfgD.subnode = false →
      devicesStep opts cfgD (.value v) = ([], .ok cfgD)) ∧
    (∀ t, cfgD.state = .newestEventMap t →
      isNewestEventsSubnode cfgD.subnode = false →
      devicesStep opts cfgD (.value v) = ([], .ok cfgD)) := by
  obtain ⟨a, subA, stA, kA, stack⟩ := cfgA
  obtain ⟨dev, subD, stD, kD, md, ad⟩ := cfgD
  refine ⟨?_, ?_, ?_, ?_, ?_⟩
  · intro h1 h2
    cases h1
    cases subA <;> simp_all [appliancesStep, isDeviceSubnode]
  · intro h1 h2
    cases h1
    cases subA <;> simp_all [appliancesStep, isModelSubnode]
  · intro h1 h2
    cases h1
    cases subA <;> simp_all [appliancesStep, isEchonetSubnode]
  · intro h1 h2
    cases h1
    cases subD <;> simp_all [devicesStep, isUserSubnode]
  · intro t h1 h2
    cases h1
    cases subD <;> simp_all [devicesStep, isNewestEventsSubnode]

/-- C3 witness: a concrete appliances configuration in the model-map
context with a device sub-record active fails with
`UnexpectedParserState`, and a concrete devices configuration in a
newest-event map with a user sub-record active silently drops the
scalar. -/
theorem claim_C3_witness :
    appliancesStep defaultParserOptions
      { appliancesInit with
          state := .modelMap,
          subnode := .device defaultDevice, nodeKey := some .name }
      (.value (.string ['x'])) = ([], .error .unexpectedParserState) ∧
    devicesStep defaultParserOptions
      { devicesInit with
          state := .newestEventMap .temperature,
          subnode := .user defaultUser, nodeKey := some .val }
      (.value (.number (.i32 5))) =
      ([], .ok
        { devicesInit with
            state := .newestEventMap .temperature,
            subnode := .user defaultUser, nodeKey := some .val }) :=
  ⟨(claim_C3 defaultParserOptions
      { appliancesInit with
          state := .modelMap,
          subnode := .device defaultDevice, nodeKey := some .name }
      { devicesInit with
          state := .newestEventMap .temperature,
          subnode := .user defaultUser, nodeKey := some .val }
      (.string ['x'])).2.1 rfl (by decide),
   ((claim_C3 defaultParserOptions
      { appliancesInit with
          state := .modelMap,
          subnode := .device defaultDevice, nodeKey := some .name }
      { devicesInit with
          state := .newestEventMap .temperature,
          subnode := .user defaultUser, nodeKey := some .val }
      (.number (.i32 5))).2.2.2.2 .temperature rfl (by decide))⟩

/-! ## Claim C4: pending-key consumption by scalar values -/

/-- C4: the counterexample.  Processing a scalar value inside an
unknown map does not consume the pending key: after the reachable run
below — entering an unknown subtree of an appliance record, reading the
recognized key `device`, then a scalar — the closure still holds
`device` as pending key, contrary to the claim that a scalar always
clears it. -/
theorem claim_C4_counterexample :
    appliancesRun defaultParserOptions appliancesInit
      stalePendingKeyEvents =
      ([], .ok
        { appliance := defaultAppliance
          subnode := .device defaultDevice
          state := .unknownMap
          nodeKey := some .device
          stateStack := [.applianceMap, .appliancesArray, .start] }) := by
  decide

/-- C4 (amended): a scalar value consumes the pending key in every
recognized record context — the device map of `read_devices`, its user
map and newest-event maps when the sub-record discriminant matches, and
the appliance, device, model and echonet-lite property maps of
`read_appliances` — but a scalar processed inside an unknown subtree
(`UnknownMapArray` of `read_devices`; `UnknownMap` / `UnknownArray` of
`read_appliances`) leaves the closure state, pending key included,
untouched. -/
theorem claim_C4 (opts : ParserOptions) (cfgD : DevicesConfig)
    (cfgA : AppliancesConfig) (v : JsonScalarValue) :
    (cfgD.state = .deviceMap →
      ∀ cbs cfg2, devicesStep opts cfgD (.value v) = (cbs, .ok cfg2) →
        cfg2.nodeKey = none) ∧
    (cfgD.state = .userMap → isUserSubnode cfgD.subnode = true →
      ∀ cbs cfg2, devicesStep opts cfgD (.value v) = (cbs, .ok cfg2) →
        cfg2.nodeKey = none) ∧
    (∀ t, cfgD.state = .newestEventMap t →
      isNewestEventsSubnode cfgD.subnode = true →
      ∀ cbs cfg2, devicesStep opts cfgD (.value v) = (cbs, .ok cfg2) →
        cfg2.nodeKey = none) ∧
    (cfgA.state = .applianceMap ∨ cfgA.state = .deviceMap ∨
        cfgA.state = .modelMap ∨ cfgA.state = .echonetLitePropertyMap →
      ∀ cbs cfg2, appliancesStep opts cfgA (.value v) = (cbs, .ok cfg2) →
        cfg2.nodeKey = none) ∧
    (cfgD.state = .unknownMapArray →
      devicesStep opts cfgD (.value v) = ([], .ok cfgD)) ∧
    (cfgA.state = .unknownMap ∨ cfgA.state = .unknownArray →
      appliancesStep opts cfgA (.value v) = ([], .ok cfgA)) := by
  obtain ⟨dev, subD, stD, kD, md, ad⟩ := cfgD
  obtain ⟨a, subA, stA, kA, stack⟩ := cfgA
  refine ⟨?_, ?_, ?_, ?_, ?_, ?_⟩
  · intro h cbs cfg2 hstep
    subst h
    cases kD <;> simp only [devicesStep] at hstep <;>
      (repeat' split at hstep) <;> simp_all <;>
      (obtain ⟨h1, h2⟩ := hstep; subst h2; rfl)
  · intro h hsub cbs cfg2 hstep
    subst h
    cases subD with
    | user u =>
      cases kD <;> simp only [devicesStep] at hstep <;>
        (repeat' split at hstep) <;> simp_all <;>
        (obtain ⟨h1, h2⟩ := hstep; subst h2; rfl)
    | newestEvents ne => simp [isUserSubnode] at hsub
  · intro t h hsub cbs cfg2 hstep
    subst h
    cases subD with
    | newestEvents ne =>
      simp only [devicesStep] at hstep
      (repeat' split at hstep)
      all_goals simp_all
      all_goals
        obtain ⟨h1, h2⟩ := hstep
        subst h2
        rfl
    | user u => simp [isNewestEventsSubnode] at hsub
  · intro h cbs cfg2 hstep
    rcases h with h | h | h | h <;> subst h <;> cases subA <;>
      cases kA <;> simp only [appliancesStep] at hstep <;>
      (repeat' split at hstep) <;> simp_all <;>
      (obtain ⟨h1, h2⟩ := hstep; subst h2; rfl)
  · intro h
    subst h
    simp [devicesStep]
  · intro h
    rcases h with h | h <;> subst h <;> simp [appliancesStep]

/-- C4 witness: with a concrete unknown-map configuration already
holding the recognized pending key `device`, processing a scalar leaves
the configuration (pending key included) unchanged; and in a concrete
appliance-map configuration a scalar under the recognized key `nickname`
comes out with the pending key cleared. -/
theorem claim_C4_witness :
    appliancesStep defaultParserOptions
      { appliancesInit with state := .unknownMap, nodeKey := some .device }
      (.value (.boolean true)) =
      ([], .ok { appliancesInit with
                  state := .unknownMap
                  nodeKey := some .device }) ∧
    ({ appliancesInit with
        state := .applianceMap,
        nodeKey := none } : AppliancesConfig).nodeKey = none :=
  ⟨(claim_C4 defaultParserOptions devicesInit
      { appliancesInit with state := .unknownMap, nodeKey := some .device }
      (.boolean true)).2.2.2.2.2 (Or.inl rfl),
   (claim_C4 defaultParserOptions devicesInit
      { appliancesInit with state := .applianceMap, nodeKey := none }
      (.boolean true)).2.2.2.1 (Or.inl rfl) []
      { appliancesInit with state := .applianceMap, nodeKey := none }
      (by decide)⟩

/-! ## Claim C5: bounded string copy under both overflow policies -/

theorem copyStringPossible_of_fits :
    ∀ (s : List Char) (n : Nat), utf8Len s ≤ n →
      copyStringPossible n s = s := by
  intro s
  induction s with
  | nil => intro n _; rfl
  | cons c t ih =>
    intro n h
    simp only [utf8Len] at h
    have hc : c.utf8Size ≤ n := by omega
    simp only [copyStringPossible, if_pos hc]
    rw [ih (n - c.utf8Size) (by omega)]

theorem copyStringPossible_longest :
    ∀ (s : List Char) (n : Nat),
      ∃ k, k ≤ s.length ∧ copyStringPossible n s = s.take k ∧
        utf8Len (s.take k) ≤ n ∧
        ∀ j, j ≤ s.length → utf8Len (s.take j) ≤ n → j ≤ k := by
  intro s
  induction s with
  | nil =>
    intro n
    exact ⟨0, by simp, rfl, by simp [utf8Len], by simp⟩
  | cons c t ih =>
    intro n
    by_cases hc : c.utf8Size ≤ n
    · obtain ⟨k, hkl, hk, hfit, hmax⟩ := ih (n - c.utf8Size)
      refine ⟨k + 1, by simpa using hkl, ?_, ?_, ?_⟩
      · simp only [copyStringPossible, if_pos hc, hk, List.take_succ_cons]
      · simp only [List.take_succ_cons, utf8Len]
        omega
      · intro j hj hfitj
        cases j with
        | zero => omega
        | succ j2 =>
          simp only [List.take_succ_cons, utf8Len] at hfitj
          have := hmax j2 (by simpa using hj) (by omega)
          omega
    · refine ⟨0, by simp, ?_, by simp [utf8Len], ?_⟩
      · simp only [copyStringPossible, if_neg hc, List.take_zero]
      · intro j hj hfitj
        cases j with
        | zero => omega
        | succ j2 =>
          simp only [List.take_succ_cons, utf8Len] at hfitj
          omega

/-- C5: a string that fits its field's byte capacity is stored intact
under either policy; an over-long string is truncated to the longest
prefix that fits under the truncate policy, with no error; under the
reject policy it fails with `StringTooLong`, and a failed appliances
run processes no further events and emits no further callbacks. -/
theorem claim_C5 (n : Nat) (opts : ParserOptions) (s : List Char) :
    (utf8Len s ≤ n → copyStringOption n opts s = .ok s) ∧
    (n < utf8Len s → opts.truncateTooLongString = true →
      ∃ k, k ≤ s.length ∧ copyStringOption n opts s = .ok (s.take k) ∧
        utf8Len (s.take k) ≤ n ∧
        ∀ j, j ≤ s.length → utf8Len (s.take j) ≤ n → j ≤ k) ∧
    (n < utf8Len s → opts.truncateTooLongString = false →
      copyStringOption n opts s = .error .stringTooLong) ∧
    (∀ (cfg : AppliancesConfig) (es fs : List JsonNode),
      (appliancesRun opts cfg es).2 = .error .stringTooLong →
      appliancesRun opts cfg (es ++ fs) = appliancesRun opts cfg es) := by
  refine ⟨?_, ?_, ?_, ?_⟩
  · intro h
    unfold copyStringOption
    split
    · rw [copyStringPossible_of_fits s n h]
    · simp [h]
  · intro _ hpol
    obtain ⟨k, hkl, hk, hfit, hmax⟩ := copyStringPossible_longest s n
    exact ⟨k, hkl, by simp [copyStringOption, hpol, hk], hfit, hmax⟩
  · intro hlong hpol
    simp [copyStringOption, hpol, Nat.not_le.mpr hlong]
  · intro cfg es fs h
    exact appliancesRun_error_absorb opts fs es cfg .stringTooLong h

/-- C5 witness: at capacity 2 the 3-byte string `abc` is rejected with
`StringTooLong` under the reject policy, and at capacity 4 it is stored
intact. -/
theorem claim_C5_witness :
    2 < utf8Len ['a', 'b', 'c'] ∧
    copyStringOption 2 ⟨false⟩ ['a', 'b', 'c'] = .error .stringTooLong ∧
    copyStringOption 4 ⟨false⟩ ['a', 'b', 'c'] = .ok ['a', 'b', 'c'] :=
  ⟨by decide,
   (claim_C5 2 ⟨false⟩ ['a', 'b', 'c']).2.2.1 (by decide) rfl,
   (claim_C5 4 ⟨false⟩ ['a', 'b', 'c']).1 (by decide)⟩

/-! ## Claim C6: close events and UnexpectedMapArrayEnd -/

/-- C6: the devices counterexample.  A close event with a mismatched
container kind — an end-of-array while inside a device map — makes
`read_devices` fail through the catch-all `UnexpectedNode` diagnostic,
not with `UnexpectedMapArrayEnd` as the claim states. -/
theorem claim_C6_counterexample :
    isUnexpectedNodeAbort
      (devicesRun defaultParserOptions devicesInit
        [.startArray, .startMap, .endArray]).2 = true ∧
    (devicesRun defaultParserOptions devicesInit
        [.startArray, .startMap, .endArray]).2 ≠
      .error (.parseError .unexpectedMapArrayEnd) := by decide

/-- C6 (amended): in `read_appliances` every close event whose
container kind does not classify against the current context, and every
close event popping an empty context stack, fails with
`UnexpectedMapArrayEnd`.  In `read_devices` no step ever produces
`UnexpectedMapArrayEnd`: a close event with no matching transition
falls into the catch-all `UnexpectedNode` instead, and closes inside
unknown subtrees only adjust the depth counters. -/
theorem claim_C6 (opts : ParserOptions) (cfgA : AppliancesConfig)
    (cfgD : DevicesConfig) :
    (isArrayState cfgA.state = false →
      appliancesStep opts cfgA .endArray =
        ([], .error .unexpectedMapArrayEnd)) ∧
    (isMapState cfgA.state = false →
      appliancesStep opts cfgA .endMap =
        ([], .error .unexpectedMapArrayEnd)) ∧
    (isArrayState cfgA.state = true → cfgA.stateStack = [] →
      appliancesStep opts cfgA .endArray =
        ([], .error .unexpectedMapArrayEnd)) ∧
    (isMapState cfgA.state = true → cfgA.stateStack = [] →
      (appliancesStep opts cfgA .endMap).2 =
        .error .unexpectedMapArrayEnd) ∧
    (∀ node : JsonNode,
      (devicesStep opts cfgD node).2 ≠
        .error (.parseError .unexpectedMapArrayEnd)) := by
  obtain ⟨a, subA, stA, kA, stack⟩ := cfgA
  refine ⟨?_, ?_, ?_, ?_, ?_⟩
  · intro h
    cases stA <;> simp_all [appliancesStep, isArrayState]
  · intro h
    cases stA <;> simp_all [appliancesStep, isMapState]
  · intro h hstack
    cases stA <;> simp_all [appliancesStep, isArrayState]
  · intro h hstack
    cases stA <;> simp_all [appliancesStep, isMapState]
  · intro node h
    have := devicesStep_errors opts cfgD node .unexpectedMapArrayEnd h
    simp [devicesPossibleError] at this

/-- C6 witness: in the appliances start context — not an array
context — an end-of-array fails with `UnexpectedMapArrayEnd`, and an
end-of-map arriving with the context stack empty also fails with
`UnexpectedMapArrayEnd`. -/
theorem claim_C6_witness :
    appliancesStep defaultParserOptions appliancesInit .endArray =
      ([], .error .unexpectedMapArrayEnd) ∧
    (appliancesStep defaultParserOptions
        { appliancesInit with state := .applianceMap } .endMap).2 =
      .error .unexpectedMapArrayEnd :=
  ⟨(claim_C6 defaultParserOptions appliancesInit devicesInit).1
      (by decide),
   (claim_C6 defaultParserOptions
      { appliancesInit with state := .applianceMap } devicesInit).2.2.2.1
      (by decide) rfl⟩

/-! ## Claim C7: kind mismatches and unrecognized keys are dropped -/

theorem applyDeviceField_no_match (opts : ParserOptions) (dev : Device)
    (k : ModelNodeKey) (v : JsonScalarValue)
    (h : deviceFieldMatches k v = false) :
    applyDeviceField opts dev k v = .ok dev := by
  cases k <;> cases v <;> simp_all [deviceFieldMatches, applyDeviceField]

theorem applyApplianceField_no_match (opts : ParserOptions)
    (a : Appliance) (k : ModelNodeKey) (v : JsonScalarValue)
    (h : applianceFieldMatches k v = false) :
    applyApplianceField opts a k v = .ok a := by
  cases k <;> cases v <;>
    simp_all [applianceFieldMatches, applyApplianceField]

/-- C7: in the device map of `read_devices` and the appliance map of
`read_appliances`, a scalar paired with a recognized key whose JSON
primitive kind does not match the field's expected kind, or paired with
no recognized pending key, is dropped without error: the step succeeds,
no record field changes, the context is unchanged, the pending key is
consumed, and no callback fires. -/
theorem claim_C7 (opts : ParserOptions) (cfgD : DevicesConfig)
    (cfgA : AppliancesConfig) (k : ModelNodeKey) (v : JsonScalarValue) :
    (cfgD.state = .deviceMap → cfgD.nodeKey = some k →
      deviceFieldMatches k v = false →
      devicesStep opts cfgD (.value v) =
        ([], .ok { cfgD with nodeKey := none })) ∧
    (cfgD.state = .deviceMap → cfgD.nodeKey = none →
      devicesStep opts cfgD (.value v) = ([], .ok cfgD)) ∧
    (cfgA.state = .applianceMap → cfgA.nodeKey = some k →
      applianceFieldMatches k v = false →
      appliancesStep opts cfgA (.value v) =
        ([], .ok { cfgA with nodeKey := none })) ∧
    (cfgA.state = .applianceMap → cfgA.nodeKey = none →
      appliancesStep opts cfgA (.value v) = ([], .ok cfgA)) := by
  obtain ⟨dev, subD, stD, kD, md, ad⟩ := cfgD
  obtain ⟨a, subA, stA, kA, stack⟩ := cfgA
  refine ⟨?_, ?_, ?_, ?_⟩
  · intro h1 h2 h3
    cases h1
    cases h2
    simp [devicesStep, applyDeviceField_no_match opts dev k v h3]
  · intro h1 h2
    cases h1
    cases h2
    simp [devicesStep]
  · intro h1 h2 h3
    cases h1
    cases h2
    simp [appliancesStep, applyApplianceField_no_match opts a k v h3]
  · intro h1 h2
    cases h1
    cases h2
    simp [appliancesStep]

/-- C7 witness: a numeric scalar under the string-typed key `name` and
a scalar with no recognized pending key are both dropped with the
configuration otherwise unchanged. -/
theorem claim_C7_witness :
    devicesStep defaultParserOptions
      { devicesInit with state := .deviceMap, nodeKey := some .name }
      (.value (.number (.i32 7))) =
      ([], .ok { devicesInit with state := .deviceMap, nodeKey := none }) ∧
    devicesStep defaultParserOptions
      { devicesInit with state := .deviceMap }
      (.value (.boolean false)) =
      ([], .ok { devicesInit with state := .deviceMap }) :=
  ⟨(claim_C7 defaultParserOptions
      { devicesInit with state := .deviceMap, nodeKey := some .name }
      appliancesInit .name (.number (.i32 7))).1 rfl rfl (by decide),
   (claim_C7 defaultParserOptions
      { devicesInit with state := .deviceMap }
      appliancesInit .name (.boolean false)).2.1 rfl rfl⟩

/-! ## Claim C9: appliance-type enumeration -/

/-- C9: a string under the recognized `type` key in an appliance map is
matched exactly against the fixed appliance-type table: a match stores
the enumerated value and consumes the key, no match fails with
`UnexpectedEnumValue` (with no callback from that step), and a failed
appliances run processes no further events, so the parse aborts. -/
theorem claim_C9 (opts : ParserOptions) (cfgA : AppliancesConfig)
    (s : List Char) :
    (cfgA.state = .applianceMap → cfgA.nodeKey = some .type_ →
      applianceTypeFromStr s = none →
      appliancesStep opts cfgA (.value (.string s)) =
        ([], .error .unexpectedEnumValue)) ∧
    (∀ t, cfgA.state = .applianceMap → cfgA.nodeKey = some .type_ →
      applianceTypeFromStr s = some t →
      appliancesStep opts cfgA (.value (.string s)) =
        ([], .ok { cfgA with
                    appliance := { cfgA.appliance with type_ := t },
                    nodeKey := none })) ∧
    (∀ (cfg : AppliancesConfig) (es fs : List JsonNode)
        (e : ModelNodeParseError),
      (appliancesRun opts cfg es).2 = .error e →
      appliancesRun opts cfg (es ++ fs) = appliancesRun opts cfg es) := by
  obtain ⟨a, subA, stA, kA, stack⟩ := cfgA
  refine ⟨?_, ?_, ?_⟩
  · intro h1 h2 h3
    cases h1
    cases h2
    simp [appliancesStep, applyApplianceField, h3]
  · intro t h1 h2 h3
    cases h1
    cases h2
    simp [appliancesStep, applyApplianceField, h3]
  · intro cfg es fs e h
    exact appliancesRun_error_absorb opts fs es cfg e h

/-- C9 witness: the tag `UNKNOWN_TYPE` is outside the known set and
fails with `UnexpectedEnumValue`; the tag `EL_SMART_METER` matches and
is stored. -/
theorem claim_C9_witness :
    appliancesStep defaultParserOptions
      { appliancesInit with state := .applianceMap, nodeKey := some .type_ }
      (.value (.string "UNKNOWN_TYPE".toList)) =
      ([], .error .unexpectedEnumValue) ∧
    appliancesStep defaultParserOptions
      { appliancesInit with state := .applianceMap, nodeKey := some .type_ }
      (.value (.string "EL_SMART_METER".toList)) =
      ([], .ok { appliancesInit with
                  state := .applianceMap,
                  appliance := { defaultAppliance with type_ := .smartMeter },
                  nodeKey := none }) :=
  ⟨(claim_C9 defaultParserOptions
      { appliancesInit with state := .applianceMap, nodeKey := some .type_ }
      "UNKNOWN_TYPE".toList).1 rfl rfl (by decide),
   (claim_C9 defaultParserOptions
      { appliancesInit with state := .applianceMap, nodeKey := some .type_ }
      "EL_SMART_METER".toList).2.1 .smartMeter rfl rfl (by decide)⟩

/-! ## Claims C8, C10: the MAC address grammar -/

theorem parseMacTail1_char (s : List Char) :
    parseMacTail1 s =
      if macOk1 s then some (macVal1 s, macDrop1 s) else none := by
  rcases s with _ | ⟨a, _ | ⟨b, t⟩⟩
  · rfl
  · rfl
  · by_cases h : (isHexChar a && isHexChar b) = true <;>
      simp [parseMacTail1, parseByteString, macOk1, macVal1, macDrop1,
        byteOf, h]

theorem parseMacTail2_char (s : List Char) :
    parseMacTail2 s =
      if macOk2 s then some (macVal2 s, macDrop2 s) else none := by
  rcases s with _ | ⟨a, _ | ⟨b, _ | ⟨d, t⟩⟩⟩
  · rfl
  · rfl
  · by_cases h : (isHexChar a && isHexChar b) = true <;>
      simp [parseMacTail2, parseByteString, parseDelimiter, macOk2, h]
  · by_cases h : (isHexChar a && isHexChar b) = true
    case neg => simp [parseMacTail2, parseByteString, macOk2, h]
    case pos =>
      by_cases hd : isDelimChar d = true
      case neg =>
        simp [parseMacTail2, parseByteString, parseDelimiter, macOk2, h, hd]
      case pos =>
        simp only [parseMacTail2, parseByteString, parseDelimiter,
          if_pos h, if_pos hd, Option.some_bind, parseMacTail1_char]
        by_cases ho : macOk1 t = true <;>
          simp [macOk2, macVal2, macDrop2, byteOf, h, hd, ho]

theorem parseMacTail3_char (s : List Char) :
    parseMacTail3 s =
      if macOk3 s then some (macVal3 s, macDrop3 s) else none := by
  rcases s with _ | ⟨a, _ | ⟨b, _ | ⟨d, t⟩⟩⟩
  · rfl
  · rfl
  · by_cases h : (isHexChar a && isHexChar b) = true <;>
      simp [parseMacTail3, parseByteString, parseDelimiter, macOk3, h]
  · by_cases h : (isHexChar a && isHexChar b) = true
    case neg => simp [parseMacTail3, parseByteString, macOk3, h]
    case pos =>
      by_cases hd : isDelimChar d = true
      case neg =>
        simp [parseMacTail3, parseByteString, parseDelimiter, macOk3, h, hd]
      case pos =>
        simp only [parseMacTail3, parseByteString, parseDelimiter,
          if_pos h, if_pos hd, Option.some_bind, parseMacTail2_char]
        by_cases ho : macOk2 t = true <;>
          simp [macOk3, macVal3, macDrop3, byteOf, h, hd, ho]

theorem parseMacTail4_char (s : List Char) :
    parseMacTail4 s =
      if macOk4 s then some (macVal4 s, macDrop4 s) else none := by
  rcases s with _ | ⟨a, _ | ⟨b, _ | ⟨d, t⟩⟩⟩
  · rfl
  · rfl
  · by_cases h : (isHexChar a && isHexChar b) = true <;>
      simp [parseMacTail4, parseByteString, parseDelimiter, macOk4, h]
  · by_cases h : (isHexChar a && isHexChar b) = true
    case neg => simp [parseMacTail4, parseByteString, macOk4, h]
    case pos =>
      by_cases hd : isDelimChar d = true
      case neg =>
        simp [parseMacTail4, parseByteString, parseDelimiter, macOk4, h, hd]
      case pos =>
        simp only [parseMacTail4, parseByteString, parseDelimiter,
          if_pos h, if_pos hd, Option.some_bind, parseMacTail3_char]
        by_cases ho : macOk3 t = true <;>
          simp [macOk4, macVal4, macDrop4, byteOf, h, hd, ho]

theorem parseMacTail5_char (s : List Char) :
    parseMacTail5 s =
      if macOk5 s then some (macVal5 s, macDrop5 s) else none := by
  rcases s with _ | ⟨a, _ | ⟨b, _ | ⟨d, t⟩⟩⟩
  · rfl
  · rfl
  · by_cases h : (isHexChar a && isHexChar b) = true <;>
      simp [parseMacTail5, parseByteString, parseDelimiter, macOk5, h]
  · by_cases h : (isHexChar a && isHexChar b) = true
    case neg => simp [parseMacTail5, parseByteString, macOk5, h]
    case pos =>
      by_cases hd : isDelimChar d = true
      case neg =>
        simp [parseMacTail5, parseByteString, parseDelimiter, macOk5, h, hd]
      case pos =>
        simp only [parseMacTail5, parseByteString, parseDelimiter,
          if_pos h, if_pos hd, Option.some_bind, parseMacTail4_char]
        by_cases ho : macOk4 t = true <;>
          simp [macOk5, macVal5, macDrop5, byteOf, h, hd, ho]

theorem parseMacTail6_char (s : List Char) :
    parseMacTail6 s =
      if macOk6 s then some (macVal6 s, macDrop6 s) else none := by
  rcases s with _ | ⟨a, _ | ⟨b, _ | ⟨d, t⟩⟩⟩
  · rfl
  · rfl
  · by_cases h : (isHexChar a && isHexChar b) = true <;>
      simp [parseMacTail6, parseByteString, parseDelimiter, macOk6, h]
  · by_cases h : (isHexChar a && isHexChar b) = true
    case neg => simp [parseMacTail6, parseByteString, macOk6, h]
    case pos =>
      by_cases hd : isDelimChar d = true
      case neg =>
        simp [parseMacTail6, parseByteString, parseDelimiter, macOk6, h, hd]
      case pos =>
        simp only [parseMacTail6, parseByteString, parseDelimiter,
          if_pos h, if_pos hd, Option.some_bind, parseMacTail5_char]
        by_cases ho : macOk5 t = true <;>
          simp [macOk6, macVal6, macDrop6, byteOf, h, hd, ho]

/-- C8: the counterexample.  A string of seven colon-separated octets
is not of the claimed exact form — six octets and nothing else — yet
`MacAddress::from_str` accepts it, returning the first six octets and
ignoring the seventh; so the claim's "exactly for" characterization of
the accepted set is false. -/
theorem claim_C8_counterexample :
    macAddressFromStr "00:11:22:33:44:55:66".toList =
      .ok ⟨0, 17, 34, 51, 68, 85⟩ ∧
    macClaimedExactForm "00:11:22:33:44:55:66".toList = false := by
  decide

/-- Full characterization of `MacAddress::from_str`: success exactly on
a well-formed 17-character MAC prefix, returning its octet values. -/
theorem macAddressFromStr_char (s : List Char) :
    macAddressFromStr s =
      if macOk6 s then .ok (macValueOf s)
      else .error .macAddressParseError := by
  unfold macAddressFromStr parseMacAddress
  rw [parseMacTail6_char s]
  by_cases h : macOk6 s = true <;> simp [h, macValueOf]

/-- C8 (amended): `MacAddress::from_str` succeeds exactly on strings
whose first 17 characters form six 2-digit hexadecimal octets separated
by colon or hyphen delimiters — trailing characters are ignored — and
then returns precisely those six octet values; every other string
(wrong separator, non-hexadecimal digit where an octet is expected, or
too short) yields `MacAddressParseError`. -/
theorem claim_C8 (s : List Char) :
    macAddressFromStr s =
      if macOk6 s then .ok (macValueOf s)
      else .error .macAddressParseError :=
  macAddressFromStr_char s

/-- C10: `MacAddress::from_str` succeeds on every string whose prefix
is six valid 2-digit hexadecimal octets with colon or hyphen
delimiters, with each of the five separator positions independently
colon or hyphen, ignoring all trailing characters, and returns the six
octet values. -/
theorem claim_C10
    (a1 a2 b1 b2 c1 c2 e1 e2 f1 f2 g1 g2 d1 d2 d3 d4 d5 : Char)
    (rest : List Char)
    (ha1 : isHexChar a1 = true) (ha2 : isHexChar a2 = true)
    (hb1 : isHexChar b1 = true) (hb2 : isHexChar b2 = true)
    (hc1 : isHexChar c1 = true) (hc2 : isHexChar c2 = true)
    (he1 : isHexChar e1 = true) (he2 : isHexChar e2 = true)
    (hf1 : isHexChar f1 = true) (hf2 : isHexChar f2 = true)
    (hg1 : isHexChar g1 = true) (hg2 : isHexChar g2 = true)
    (hd1 : isDelimChar d1 = true) (hd2 : isDelimChar d2 = true)
    (hd3 : isDelimChar d3 = true) (hd4 : isDelimChar d4 = true)
    (hd5 : isDelimChar d5 = true) :
    macAddressFromStr (a1 :: a2 :: d1 :: b1 :: b2 :: d2 :: c1 :: c2 :: d3 ::
        e1 :: e2 :: d4 :: f1 :: f2 :: d5 :: g1 :: g2 :: rest) =
      .ok ⟨byteOf a1 a2, byteOf b1 b2, byteOf c1 c2, byteOf e1 e2,
           byteOf f1 f2, byteOf g1 g2⟩ := by
  have hok : macOk6 (a1 :: a2 :: d1 :: b1 :: b2 :: d2 :: c1 :: c2 :: d3 ::
      e1 :: e2 :: d4 :: f1 :: f2 :: d5 :: g1 :: g2 :: rest) = true := by
    simp [macOk6, macOk5, macOk4, macOk3, macOk2, macOk1, ha1, ha2, hb1,
      hb2, hc1, hc2, he1, he2, hf1, hf2, hg1, hg2, hd1, hd2, hd3, hd4, hd5]
  rw [macAddressFromStr_char, hok]
  simp [macValueOf, macVal6, macVal5, macVal4, macVal3, macVal2, macVal1,
    byteOf]

/-- C10 witness: a concrete address mixing hyphen and colon delimiters
in independent positions, with trailing characters after the sixth
octet, parses to its six octet values. -/
theorem claim_C10_witness :
    macAddressFromStr
      ['a', '0', '-', 'b', '1', ':', 'c', '2', '-', 'd', '3', ':',
       'e', '4', '-', 'f', '5', 'x', 'y', 'z'] =
      .ok ⟨160, 177, 194, 211, 228, 245⟩ :=
  claim_C10 'a' '0' 'b' '1' 'c' '2' 'd' '3' 'e' '4' 'f' '5'
    '-' ':' '-' ':' '-' ['x', 'y', 'z']
    (by decide) (by decide) (by decide) (by decide) (by decide) (by decide)
    (by decide) (by decide) (by decide) (by decide) (by decide) (by decide)
    (by decide) (by decide) (by decide) (by decide) (by decide)

end RemoApi
